import Mathlib

/-!
# Shallow embedding of the privateScore core

Definitions translated from the TypeScript sources:
* `src/frontend/lib/zkProof.ts` — commitment scheme and simulated ZK proof
  generation (score-threshold, DTI, payment-history, composite creditworthy).
* `src/unnamed/part_000` — credit-score engine (`calculateCreditScore` and its
  five component scorers, `getTierFromScore`, recommendations).
* `src/frontend/lib/creditScore.ts` — alternative payment-history scorer.
* `src/frontend/lib/constants.ts` — `CREDIT_SCORE`, `CREDIT_TIERS` constants.
* `src/tests/private-score.ts` — `HeliusClient.calculateCreditMetrics`
  aggregation loop.

Modelling conventions:
* JavaScript `number` is modelled by `ℚ`; the only places where IEEE-754
  non-finite values matter (division producing `NaN`/`Infinity` followed by a
  comparison) are modelled explicitly by the `JSNum` type, mirroring IEEE
  semantics of `x / 0`, `0 / 0`, and comparisons against `NaN`/`±Infinity`.
* `Math.round` is `jsRound` (floor of `x + 1/2`, which is JS round semantics),
  `Math.floor` is `Int.floor`, `Math.min`/`Math.max` are `min`/`max`.
* `Date.now()` is passed in explicitly as an integer millisecond clock value
  `now`; `async` wrappers and the simulated `setTimeout` delays are dropped
  (they do not affect the returned values).
* `throw` is modelled by `Except` with an inductive error type; the source
  error message strings are abstracted to the error constructors.
* The SHA-256 digest comes from the external `@noble/hashes` library, not from
  this repository, so it is a parameter `hash : List ℕ → List ℕ` of every
  definition that uses it (bytes in, bytes out).  `concreteHash` below is a
  stand-in instantiation used for concrete evaluations.
-/

/-- JS `Math.round`: round half toward positive infinity. -/
def jsRound (q : ℚ) : ℤ := ⌊q + 1/2⌋

/-- JS `ToUint32`-style truncation toward zero (used by `DataView.setUint32`). -/
def jsTrunc (q : ℚ) : ℤ := q.num / (q.den : ℤ)

/-- A JS floating-point value as far as this code base exercises it:
either a finite value (kept exact as a rational), `NaN`, or a signed
infinity.  Only division can introduce the non-finite values here. -/
inductive JSNum where
  | nan : JSNum
  | posInf : JSNum
  | negInf : JSNum
  | num : ℚ → JSNum
deriving DecidableEq, Repr

/-- JS division on finite operands: `0/0 = NaN`, `x/0 = ±Infinity` for
`x ≠ 0`, otherwise exact division. -/
def jsDiv (a b : ℚ) : JSNum :=
  if b = 0 then
    if a = 0 then .nan
    else if 0 < a then .posInf
    else .negInf
  else .num (a / b)

/-- Multiply a JS value by a positive finite constant (used for `* 10000`);
`NaN` and infinities are absorbing. -/
def jsMulPos (x : JSNum) (c : ℚ) : JSNum :=
  match x with
  | .nan => .nan
  | .posInf => .posInf
  | .negInf => .negInf
  | .num q => .num (q * c)

/-- JS `>` against a finite right operand: false for `NaN`, true for
`+Infinity`, false for `-Infinity`. -/
def jsGt (x : JSNum) (c : ℚ) : Bool :=
  match x with
  | .nan => false
  | .posInf => true
  | .negInf => false
  | .num q => decide (c < q)

/-- JS `<` against a finite right operand: false for `NaN` and `+Infinity`,
true for `-Infinity`. -/
def jsLt (x : JSNum) (c : ℚ) : Bool :=
  match x with
  | .nan => false
  | .posInf => false
  | .negInf => true
  | .num q => decide (q < c)

/-- Decimal rendering of a JS number, as used in template literals and
`.toString()`: an integer renders as its decimal digits; other rationals
keep the Lean `num/den` rendering (no claim exercises the non-integer case). -/
def numStr (q : ℚ) : String :=
  if q.den = 1 then toString q.num else toString q

-- ===========================================================================
-- Hex and UTF-8 helpers (`@noble/hashes/utils` bytesToHex / hexToBytes and
-- `TextEncoder.encode`)
-- ===========================================================================

/-- Value of one hex digit character; `none` for a non-hex character.
Accepts `0-9`, `a-f`, `A-F`, as the `@noble` helper `asciiToBase16` does. -/
def hexDigitValue (c : Char) : Option ℕ :=
  if '0' ≤ c ∧ c ≤ '9' then some (c.toNat - 48)
  else if 'a' ≤ c ∧ c ≤ 'f' then some (c.toNat - 87)
  else if 'A' ≤ c ∧ c ≤ 'F' then some (c.toNat - 55)
  else none

/-- Lowercase hex digit for a value `< 16`. -/
def hexDigitChar (n : ℕ) : Char :=
  if n < 10 then Char.ofNat (48 + n) else Char.ofNat (87 + n)

/-- One byte to two lowercase hex characters. -/
def byteToHex (b : ℕ) : List Char :=
  [hexDigitChar (b / 16 % 16), hexDigitChar (b % 16)]

/-- Embeds `bytesToHex`: bytes to a lowercase hex string. -/
def bytesToHex (bs : List ℕ) : String :=
  ⟨bs.foldr (fun b acc => byteToHex b ++ acc) []⟩

/-- Character-list worker for `hexToBytes`: consumes hex-digit pairs,
failing on a non-hex character; the odd-length case is rejected by the
caller. -/
def hexPairsToBytes : List Char → Option (List ℕ)
  | [] => some []
  | [_] => none
  | c1 :: c2 :: rest =>
    match hexDigitValue c1, hexDigitValue c2 with
    | some h, some l =>
      match hexPairsToBytes rest with
      | some bs => some ((16 * h + l) :: bs)
      | none => none
    | _, _ => none

/-- Embeds `hexToBytes`: parse a hex string to bytes; `none` (the source throws) on
odd length or a non-hex character. -/
def hexToBytes (s : String) : Option (List ℕ) :=
  if s.length % 2 = 1 then none else hexPairsToBytes s.data

/-- UTF-8 encoding of one Unicode code point. -/
def utf8EncodeChar (c : Char) : List ℕ :=
  let n := c.toNat
  if n < 128 then [n]
  else if n < 2048 then [192 + n / 64, 128 + n % 64]
  else if n < 65536 then [224 + n / 4096, 128 + n / 64 % 64, 128 + n % 64]
  else [240 + n / 262144, 128 + n / 4096 % 64, 128 + n / 64 % 64, 128 + n % 64]

/-- Embeds `TextEncoder.encode`: UTF-8 bytes of a string. -/
def utf8Bytes (s : String) : List ℕ :=
  s.data.foldr (fun c acc => utf8EncodeChar c ++ acc) []

/-- Stand-in for the external SHA-256 digest, used only to instantiate the
`hash` parameter at concrete evaluation points (the structural claims proved
here hold for every digest function). -/
def concreteHash : List ℕ → List ℕ := fun _ => List.replicate 32 0

-- ===========================================================================
-- Commitment scheme (`zkProof.ts`: createCommitment / verifyCommitment)
-- ===========================================================================

/-- Errors thrown by `createCommitment`: the explicit score-range guard, and
the `hexToBytes` failure on a malformed salt. -/
inductive CommitError where
  | scoreOutOfRange : CommitError
  | invalidSaltHex : CommitError
deriving DecidableEq, Repr

/-- Embeds `DataView.setUint32(0, score, false)`: 4 big-endian bytes of the score
after JS `ToUint32` conversion. -/
def scoreToBytes (score : ℚ) : List ℕ :=
  let n := ((jsTrunc score).emod 4294967296).toNat
  [n / 16777216 % 256, n / 65536 % 256, n / 256 % 256, n % 256]

/-- Embeds `createCommitment(score, salt)`: validate `300 ≤ score ≤ 850`, decode the
salt from hex, hash `scoreBytes ++ saltBytes`, return the digest as hex. -/
def createCommitment (hash : List ℕ → List ℕ) (score : ℚ) (salt : String) :
    Except CommitError String :=
  if score < 300 ∨ 850 < score then .error .scoreOutOfRange
  else
    match hexToBytes salt with
    | none => .error .invalidSaltHex
    | some saltBytes => .ok (bytesToHex (hash (scoreToBytes score ++ saltBytes)))

/-- Embeds `verifyCommitment(score, salt, commitment)`: recompute and compare;
any error from `createCommitment` is caught and yields `false`. -/
def verifyCommitment (hash : List ℕ → List ℕ) (score : ℚ) (salt : String)
    (commitment : String) : Bool :=
  match createCommitment hash score salt with
  | .ok computed => computed == commitment
  | .error _ => false

-- ===========================================================================
-- ZK proof generation (`zkProof.ts`)
-- ===========================================================================

/-- Embeds `ProofInputs` (zkProof.ts). -/
structure ProofInputs where
  score : ℚ
  salt : String
  commitment : String
  minScore : ℚ
  poolId : String
  nonce : ℚ
deriving DecidableEq, Repr

/-- Embeds `GeneratedProof` (zkProof.ts); `timestamp`/`expiresAt` are millisecond
clock values. -/
structure GeneratedProof where
  proof : String
  publicInputs : List String
  commitment : String
  timestamp : ℤ
  expiresAt : ℤ
deriving DecidableEq, Repr

/-- Errors thrown by `generateZKProof`, in source order of the checks. -/
inductive ZKError where
  | commitmentMismatch : ZKError
  | scoreBelowThreshold : ZKError
  | invalidScoreRange : ZKError
deriving DecidableEq, Repr

/-- Embeds `generateProofElement(score, salt, suffix)`: hash of the UTF-8 bytes of
`score + "-" + salt + "-" + suffix`, rendered as hex. -/
def generateProofElement (hash : List ℕ → List ℕ) (score : ℚ) (salt : String)
    (suffix : String) : String :=
  bytesToHex (hash (utf8Bytes (numStr score ++ "-" ++ salt ++ "-" ++ suffix)))

/-- Embeds `JSON.stringify` of the single-threshold proof object. -/
def scoreProofJson (hash : List ℕ → List ℕ) (score : ℚ) (salt : String) : String :=
  "\x7b\"pi_a\":\"" ++ generateProofElement hash score salt "a" ++
  "\",\"pi_b\":\"" ++ generateProofElement hash score salt "b" ++
  "\",\"pi_c\":\"" ++ generateProofElement hash score salt "c" ++
  "\",\"protocol\":\"noir\",\"circuit\":\"prove_score_threshold\"\x7d"

/-- Embeds `generateZKProof(inputs)`: commitment check, then threshold check, then
range check; on success the serialized simulated proof as hex. -/
def generateZKProof (hash : List ℕ → List ℕ) (inputs : ProofInputs) :
    Except ZKError String :=
  if ¬ verifyCommitment hash inputs.score inputs.salt inputs.commitment then
    .error .commitmentMismatch
  else if inputs.score < inputs.minScore then
    .error .scoreBelowThreshold
  else if inputs.score < 300 ∨ 850 < inputs.score then
    .error .invalidScoreRange
  else
    .ok (bytesToHex (utf8Bytes (scoreProofJson hash inputs.score inputs.salt)))

/-- Embeds `generateCompleteProof(inputs)`: wrap `generateZKProof` with metadata;
`now` is the `Date.now()` millisecond reading, the validity window is one
hour (`60 * 60 * 1000` ms). -/
def generateCompleteProof (hash : List ℕ → List ℕ) (inputs : ProofInputs)
    (now : ℤ) : Except ZKError GeneratedProof :=
  (generateZKProof hash inputs).map fun proof =>
    { proof := proof
      publicInputs :=
        [inputs.commitment, numStr inputs.minScore, inputs.poolId,
         numStr inputs.nonce, toString (Int.fdiv now 1000)]
      commitment := inputs.commitment
      timestamp := now
      expiresAt := now + 60 * 60 * 1000 }

/-- Embeds `isProofExpired(proof)`: `Date.now() > proof.expiresAt`, with the clock
passed explicitly. -/
def isProofExpired (now : ℤ) (proof : GeneratedProof) : Bool :=
  decide (proof.expiresAt < now)

/-- Embeds `DTIProofInputs` (zkProof.ts). -/
structure DTIProofInputs where
  monthlyIncome : ℚ
  monthlyDebt : ℚ
  incomeSalt : String
  debtSalt : String
  incomeCommitment : String
  debtCommitment : String
  maxDTI : ℚ
  poolId : String
  nonce : ℚ
deriving DecidableEq, Repr

/-- The single error thrown by `generateDTIProof`. -/
inductive DTIError where
  | dtiExceedsMaximum : DTIError
deriving DecidableEq, Repr

/-- The DTI check of `generateDTIProof` / `generateCreditworthyProof`:
`(monthlyDebt / monthlyIncome) * 10000 > maxDTI` in JS float semantics
(`0/0` is `NaN`, which compares false). -/
def dtiCheckFails (monthlyDebt monthlyIncome maxDTI : ℚ) : Bool :=
  jsGt (jsMulPos (jsDiv monthlyDebt monthlyIncome) 10000) maxDTI

/-- Embeds `JSON.stringify` of the DTI proof object. -/
def dtiProofJson (hash : List ℕ → List ℕ) (inputs : DTIProofInputs) : String :=
  "\x7b\"pi_a\":\"" ++
    generateProofElement hash inputs.monthlyIncome inputs.incomeSalt "dti-a" ++
  "\",\"pi_b\":\"" ++
    generateProofElement hash inputs.monthlyDebt inputs.debtSalt "dti-b" ++
  "\",\"pi_c\":\"" ++
    generateProofElement hash (inputs.monthlyIncome + inputs.monthlyDebt)
      inputs.incomeSalt "dti-c" ++
  "\",\"protocol\":\"noir\",\"circuit\":\"prove_dti_ratio\"\x7d"

/-- Embeds `generateDTIProof(inputs)`: reject when the computed DTI ratio exceeds
`maxDTI`, otherwise emit the serialized simulated proof. -/
def generateDTIProof (hash : List ℕ → List ℕ) (inputs : DTIProofInputs) :
    Except DTIError String :=
  if dtiCheckFails inputs.monthlyDebt inputs.monthlyIncome inputs.maxDTI then
    .error .dtiExceedsMaximum
  else
    .ok (bytesToHex (utf8Bytes (dtiProofJson hash inputs)))

/-- Embeds `CreditworthyProofInputs` (zkProof.ts): `ProofInputs` plus the DTI and
payment-history private values and thresholds. -/
structure CreditworthyProofInputs extends ProofInputs where
  monthlyIncome : ℚ
  monthlyDebt : ℚ
  onTimePayments : ℚ
  totalPayments : ℚ
  maxDTI : ℚ
  minPaymentRate : ℚ
  minPaymentCount : ℚ
deriving DecidableEq, Repr

/-- Errors thrown by `generateCreditworthyProof`, in source order. -/
inductive CWError where
  | scoreBelowMinimum : CWError
  | dtiExceedsMaximum : CWError
  | paymentRateBelowMinimum : CWError
deriving DecidableEq, Repr

/-- The payment-rate check of `generateCreditworthyProof` (and of
`generatePaymentHistoryProof`): `(onTimePayments / totalPayments) * 10000 <
minPaymentRate` in JS float semantics. -/
def paymentRateCheckFails (onTimePayments totalPayments minPaymentRate : ℚ) :
    Bool :=
  jsLt (jsMulPos (jsDiv onTimePayments totalPayments) 10000) minPaymentRate

/-- Embeds `JSON.stringify` of the composite creditworthy proof object. -/
def creditworthyProofJson (hash : List ℕ → List ℕ)
    (inputs : CreditworthyProofInputs) : String :=
  "\x7b\"pi_a\":\"" ++
    generateProofElement hash inputs.score inputs.salt "master-a" ++
  "\",\"pi_b\":\"" ++
    generateProofElement hash inputs.monthlyIncome inputs.salt "master-b" ++
  "\",\"pi_c\":\"" ++
    generateProofElement hash inputs.onTimePayments inputs.salt "master-c" ++
  "\",\"protocol\":\"noir\",\"circuit\":\"prove_creditworthy\"," ++
  "\"checks\":[\"score\",\"dti\",\"payment_history\"]\x7d"

/-- Embeds `generateCreditworthyProof(inputs)`: validates `score ≥ minScore`, the
DTI ratio, and the payment rate (in that order), then bundles the composite
proof with a one-hour validity window.  It performs no commitment
verification and no `minPaymentCount` check. -/
def generateCreditworthyProof (hash : List ℕ → List ℕ)
    (inputs : CreditworthyProofInputs) (now : ℤ) :
    Except CWError GeneratedProof :=
  if inputs.score < inputs.minScore then
    .error .scoreBelowMinimum
  else if dtiCheckFails inputs.monthlyDebt inputs.monthlyIncome inputs.maxDTI then
    .error .dtiExceedsMaximum
  else if paymentRateCheckFails inputs.onTimePayments inputs.totalPayments
      inputs.minPaymentRate then
    .error .paymentRateBelowMinimum
  else
    .ok
      { proof := bytesToHex (utf8Bytes (creditworthyProofJson hash inputs))
        publicInputs :=
          [inputs.commitment, numStr inputs.minScore, numStr inputs.maxDTI,
           numStr inputs.minPaymentRate, inputs.poolId, numStr inputs.nonce]
        commitment := inputs.commitment
        timestamp := now
        expiresAt := now + 60 * 60 * 1000 }

-- ===========================================================================
-- Credit metrics (`src/tests/private-score.ts` interface CreditMetrics)
-- ===========================================================================

/-- Embeds `CreditMetrics`; the JS `Set<string>` of protocols is modelled as its
insertion-ordered list of distinct elements, and all `number` fields as `ℚ`. -/
structure CreditMetrics where
  totalBorrowed : ℚ
  totalRepaid : ℚ
  onTimePayments : ℚ
  latePayments : ℚ
  defaults : ℚ
  oldestActivityDays : ℚ
  uniqueProtocols : List String
  averageTransactionValue : ℚ
  totalTransactions : ℚ
  utilizationHistory : List ℚ
deriving DecidableEq, Repr

-- ===========================================================================
-- Score engine (`src/unnamed/part_000`, constants from `constants.ts`)
-- ===========================================================================

/-- The five qualitative rating values of `ComponentScore["rating"]`. -/
inductive Rating where
  | poor | fair | good | veryGood | excellent
deriving DecidableEq, Repr

/-- The five tier values of `CreditScoreResult["tier"]`. -/
inductive Tier where
  | poor | fair | good | veryGood | excellent
deriving DecidableEq, Repr

/-- Embeds `ComponentScore` (part_000). -/
structure ComponentScore where
  score : ℚ
  weighted : ℚ
  weight : ℚ
  rating : Rating
  details : String
deriving DecidableEq, Repr

/-- Embeds `ScoreBreakdown` (part_000). -/
structure ScoreBreakdown where
  paymentHistory : ComponentScore
  creditUtilization : ComponentScore
  accountHistory : ComponentScore
  protocolDiversity : ComponentScore
  recentActivity : ComponentScore
deriving DecidableEq, Repr

/-- Recommendation priority values. -/
inductive RecPriority where
  | high | medium | low
deriving DecidableEq, Repr

/-- Embeds `Recommendation` (part_000). -/
structure Recommendation where
  title : String
  description : String
  icon : String
  impact : Option ℚ
  priority : RecPriority
deriving DecidableEq, Repr

/-- Embeds `trend` values of `CreditScoreResult`. -/
inductive Trend where
  | up | down | stable
deriving DecidableEq, Repr

/-- Embeds `CreditScoreResult` (part_000); `lastUpdated` is the `Date.now()`
millisecond reading. -/
structure CreditScoreResult where
  score : ℤ
  tier : Tier
  breakdown : ScoreBreakdown
  recommendations : List Recommendation
  trend : Option Trend
  lastUpdated : ℤ
deriving DecidableEq, Repr

/-- Embeds `CREDIT_SCORE.MIN` (constants.ts). -/
def CREDIT_SCORE_MIN : ℚ := 300

/-- Embeds `CREDIT_SCORE.MAX` (constants.ts). -/
def CREDIT_SCORE_MAX : ℚ := 850

/-- Embeds `WEIGHTS.paymentHistory` = `CREDIT_SCORE.WEIGHTS.PAYMENT_HISTORY`. -/
def weightPaymentHistory : ℚ := 35

/-- Embeds `WEIGHTS.creditUtilization` = `CREDIT_SCORE.WEIGHTS.UTILIZATION`. -/
def weightCreditUtilization : ℚ := 30

/-- Embeds `WEIGHTS.accountHistory` = `CREDIT_SCORE.WEIGHTS.HISTORY`. -/
def weightAccountHistory : ℚ := 15

/-- Embeds `WEIGHTS.protocolDiversity` = `CREDIT_SCORE.WEIGHTS.DIVERSITY`. -/
def weightProtocolDiversity : ℚ := 10

/-- Embeds `WEIGHTS.recentActivity` = `CREDIT_SCORE.WEIGHTS.ACTIVITY`. -/
def weightRecentActivity : ℚ := 10

/-- Embeds `calculatePaymentHistoryScore` (part_000): total payments include
defaults; penalties of 15 per default and 5 per late payment against the
on-time-rate base. -/
def calculatePaymentHistoryScore (metrics : CreditMetrics) : ComponentScore :=
  let totalPayments :=
    metrics.onTimePayments + metrics.latePayments + metrics.defaults
  if totalPayments = 0 then
    { score := 50
      weighted := 50 / 100 * weightPaymentHistory
      weight := weightPaymentHistory
      rating := .fair
      details :=
        "No repayment history yet. Make some loan repayments to build credit." }
  else
    let onTimeRate := metrics.onTimePayments / totalPayments
    let defaultPenalty := metrics.defaults * 15
    let latePenalty := metrics.latePayments * 5
    let score := max 0 (onTimeRate * 100 - defaultPenalty - latePenalty)
    let rd :=
      if 90 ≤ score then
        (Rating.excellent,
          numStr metrics.onTimePayments ++ " of " ++ numStr totalPayments ++
          " payments on time (" ++ toString (jsRound (onTimeRate * 100)) ++ "%)")
      else if 75 ≤ score then
        (Rating.veryGood,
          "Good payment history with " ++ numStr metrics.onTimePayments ++
          " on-time payments")
      else if 60 ≤ score then
        (Rating.good,
          numStr metrics.latePayments ++ " late payment(s) affecting your score")
      else if 40 ≤ score then
        (Rating.fair, "Multiple late payments. Focus on making payments on time.")
      else
        (Rating.poor,
          "Payment history needs improvement. " ++ numStr metrics.defaults ++
          " default(s) recorded.")
    { score := score
      weighted := score / 100 * weightPaymentHistory
      weight := weightPaymentHistory
      rating := rd.1
      details := rd.2 }

/-- Embeds `calculateUtilizationScore` (part_000). -/
def calculateUtilizationScore (metrics : CreditMetrics) : ComponentScore :=
  if metrics.totalBorrowed = 0 then
    { score := 70
      weighted := 70 / 100 * weightCreditUtilization
      weight := weightCreditUtilization
      rating := .good
      details :=
        "No borrowing history. Consider taking a small loan to build credit." }
  else
    let currentDebt := max 0 (metrics.totalBorrowed - metrics.totalRepaid)
    let utilization := currentDebt / metrics.totalBorrowed
    let pct := toString (jsRound (utilization * 100))
    let srd :=
      if utilization ≤ 1/10 then
        ((95 : ℚ), Rating.excellent,
          "Very low utilization (" ++ pct ++ "%). Great debt management!")
      else if utilization ≤ 3/10 then
        (90, Rating.excellent, "Optimal utilization (" ++ pct ++ "%). Keep it up!")
      else if utilization ≤ 5/10 then
        (75, Rating.good,
          "Moderate utilization (" ++ pct ++ "%). Consider paying down some debt.")
      else if utilization ≤ 7/10 then
        (50, Rating.fair,
          "High utilization (" ++ pct ++ "%). Try to reduce outstanding debt.")
      else if utilization ≤ 9/10 then
        (30, Rating.poor,
          "Very high utilization (" ++ pct ++ "%). Prioritize debt repayment.")
      else
        (10, Rating.poor,
          "Critical utilization (" ++ pct ++ "%). Immediate action needed.")
    { score := srd.1
      weighted := srd.1 / 100 * weightCreditUtilization
      weight := weightCreditUtilization
      rating := srd.2.1
      details := srd.2.2 }

/-- Embeds `calculateAccountHistoryScore` (part_000). -/
def calculateAccountHistoryScore (metrics : CreditMetrics) : ComponentScore :=
  let d := metrics.oldestActivityDays
  let months := toString (jsRound (d / 30))
  let srd :=
    if d = 0 then
      ((20 : ℚ), Rating.poor, "New account. Credit history will improve with time.")
    else if d < 30 then
      (30, Rating.poor,
        "Account is " ++ numStr d ++ " days old. Keep building history!")
    else if d < 90 then
      (50, Rating.fair, months ++ " months of history. Growing nicely!")
    else if d < 180 then
      (65, Rating.good, months ++ " months of established history.")
    else if d < 365 then
      (80, Rating.veryGood, months ++ " months of solid history.")
    else
      (95, Rating.excellent,
        toString (jsRound (d / 365)) ++ " year(s) of credit history. Excellent!")
  { score := srd.1
    weighted := srd.1 / 100 * weightAccountHistory
    weight := weightAccountHistory
    rating := srd.2.1
    details := srd.2.2 }

/-- Embeds `calculateDiversityScore` (part_000); `uniqueProtocols.size` is the
length of the modelled distinct-element list. -/
def calculateDiversityScore (metrics : CreditMetrics) : ComponentScore :=
  let protocolCount := metrics.uniqueProtocols.length
  let pc := toString protocolCount
  let srd :=
    if protocolCount = 0 then
      ((20 : ℚ), Rating.poor, "No protocol activity yet. Try different DeFi platforms.")
    else if protocolCount = 1 then
      (40, Rating.fair, "1 protocol used. Diversifying can improve your score.")
    else if protocolCount ≤ 3 then
      (60, Rating.good, pc ++ " protocols used. Good diversification!")
    else if protocolCount ≤ 5 then
      (80, Rating.veryGood, pc ++ " protocols used. Well diversified!")
    else
      (95, Rating.excellent, pc ++ " protocols used. Excellent diversification!")
  { score := srd.1
    weighted := srd.1 / 100 * weightProtocolDiversity
    weight := weightProtocolDiversity
    rating := srd.2.1
    details := srd.2.2 }

/-- Embeds `calculateActivityScore` (part_000). -/
def calculateActivityScore (metrics : CreditMetrics) : ComponentScore :=
  if metrics.totalTransactions = 0 then
    { score := 20
      weighted := 20 / 100 * weightRecentActivity
      weight := weightRecentActivity
      rating := .poor
      details := "No transaction activity. Start using DeFi to build credit." }
  else
    let months := max 1 (metrics.oldestActivityDays / 30)
    let txPerMonth := metrics.totalTransactions / months
    let activityScore : ℚ :=
      if 20 ≤ txPerMonth then 95
      else if 10 ≤ txPerMonth then 85
      else if 5 ≤ txPerMonth then 70
      else if 2 ≤ txPerMonth then 50
      else 30
    let valueBonus := min 10 (metrics.averageTransactionValue / 100)
    let score := min 100 (activityScore + valueBonus)
    let tx := numStr metrics.totalTransactions
    let tpm := toString (jsRound txPerMonth)
    let rd :=
      if 85 ≤ score then
        (Rating.excellent, tx ++ " transactions (~" ++ tpm ++ "/month). Very active!")
      else if 70 ≤ score then
        (Rating.veryGood, tx ++ " transactions (~" ++ tpm ++ "/month). Good activity!")
      else if 50 ≤ score then
        (Rating.good, tx ++ " transactions. Consider more frequent activity.")
      else if 30 ≤ score then
        (Rating.fair, "Limited activity (" ++ tx ++ " transactions). Be more active.")
      else
        (Rating.poor, "Very low activity. Increase DeFi usage to improve.")
    { score := score
      weighted := score / 100 * weightRecentActivity
      weight := weightRecentActivity
      rating := rd.1
      details := rd.2 }

/-- Embeds `getTierFromScore` (part_000), with the `CREDIT_TIERS` minimums from
constants.ts: Excellent ≥ 800, Very Good ≥ 740, Good ≥ 670, Fair ≥ 580,
else Poor. -/
def getTierFromScore (score : ℤ) : Tier :=
  if 800 ≤ score then .excellent
  else if 740 ≤ score then .veryGood
  else if 670 ≤ score then .good
  else if 580 ≤ score then .fair
  else .poor

/-- Embeds `priorityOrder` used by the recommendation sort. -/
def priorityOrder : RecPriority → ℕ
  | .high => 0
  | .medium => 1
  | .low => 2

/-- One step of a stable insertion sort on priority: the new element goes
after every element of equal or smaller priority key, matching the stable
`Array.prototype.sort` of the source. -/
def insertByPriority (x : Recommendation) : List Recommendation → List Recommendation
  | [] => [x]
  | y :: ys =>
    if priorityOrder y.priority ≤ priorityOrder x.priority then
      y :: insertByPriority x ys
    else x :: y :: ys

/-- Stable sort by priority (high, medium, low). -/
def sortByPriority (xs : List Recommendation) : List Recommendation :=
  xs.foldl (fun acc x => insertByPriority x acc) []

/-- Embeds `generateRecommendations` (part_000): threshold scan over the breakdown,
stable priority sort, top five. -/
def generateRecommendations (breakdown : ScoreBreakdown) : List Recommendation :=
  let recs : List Recommendation :=
    (if breakdown.paymentHistory.score < 70 then
      [{ title := "Improve Payment History"
         description :=
           "Focus on making all loan repayments on time to boost your score."
         icon := "💳", impact := some 25, priority := .high }]
     else []) ++
    (if breakdown.creditUtilization.score < 70 then
      [{ title := "Reduce Credit Utilization"
         description :=
           "Pay down some of your outstanding debt to lower your utilization ratio."
         icon := "📉", impact := some 20, priority := .high }]
     else []) ++
    (if breakdown.accountHistory.score < 50 then
      [{ title := "Build Account History"
         description :=
           "Keep your accounts active over time. History improves naturally."
         icon := "📅", impact := some 10, priority := .low }]
     else []) ++
    (if breakdown.protocolDiversity.score < 60 then
      [{ title := "Diversify Protocol Usage"
         description :=
           "Try using different DeFi protocols to diversify your credit profile."
         icon := "🔀", impact := some 8, priority := .medium }]
     else []) ++
    (if breakdown.recentActivity.score < 50 then
      [{ title := "Increase Activity"
         description :=
           "More frequent DeFi transactions can help improve your score."
         icon := "⚡", impact := some 8, priority := .medium }]
     else [])
  (sortByPriority recs).take 5

/-- Embeds `calculateCreditScore` (part_000): five components, weighted sum, linear
map to 300–850 with clamp and `Math.round`; `now` is the `Date.now()`
millisecond reading stored in `lastUpdated`. -/
def calculateCreditScore (now : ℤ) (metrics : CreditMetrics) : CreditScoreResult :=
  let paymentHistory := calculatePaymentHistoryScore metrics
  let creditUtilization := calculateUtilizationScore metrics
  let accountHistory := calculateAccountHistoryScore metrics
  let protocolDiversity := calculateDiversityScore metrics
  let recentActivity := calculateActivityScore metrics
  let totalWeighted :=
    paymentHistory.weighted + creditUtilization.weighted +
    accountHistory.weighted + protocolDiversity.weighted +
    recentActivity.weighted
  let rawScore :=
    CREDIT_SCORE_MIN + totalWeighted / 100 * (CREDIT_SCORE_MAX - CREDIT_SCORE_MIN)
  let score := jsRound (min CREDIT_SCORE_MAX (max CREDIT_SCORE_MIN rawScore))
  let breakdown : ScoreBreakdown :=
    { paymentHistory := paymentHistory
      creditUtilization := creditUtilization
      accountHistory := accountHistory
      protocolDiversity := protocolDiversity
      recentActivity := recentActivity }
  { score := score
    tier := getTierFromScore score
    breakdown := breakdown
    recommendations := generateRecommendations breakdown
    trend := some .stable
    lastUpdated := now }

-- ===========================================================================
-- Alternative payment-history scorer (`src/frontend/lib/creditScore.ts`)
-- ===========================================================================

/-- The component record returned by the creditScore.ts scorer (only `score`,
`rating` and an optional `details` appear in its return values). -/
structure FEComponentScore where
  score : ℚ
  rating : Rating
  details : Option String
deriving DecidableEq, Repr

/-- Embeds `calculatePaymentHistoryScore` (creditScore.ts): total payments exclude
defaults, and the score is banded directly on the on-time rate. -/
def fePaymentHistoryScore (metrics : CreditMetrics) : FEComponentScore :=
  let totalPayments := metrics.onTimePayments + metrics.latePayments
  if totalPayments = 0 then
    { score := 50, rating := .fair, details := some "No repayment history yet" }
  else
    let onTimeRate := metrics.onTimePayments / totalPayments
    if 98/100 ≤ onTimeRate then { score := 100, rating := .excellent, details := none }
    else if 95/100 ≤ onTimeRate then { score := 90, rating := .good, details := none }
    else if 90/100 ≤ onTimeRate then { score := 70, rating := .fair, details := none }
    else { score := max 20 (onTimeRate * 100), rating := .poor, details := none }

/-- Follows the wording of the spec (§4.2 component table, Payment History row):
"0 total payments → 50 (Fair, neutral). Else
`score = max(0, onTimeRate*100 − defaults*15 − latePayments*5)`; banded into
Excellent(≥90)/Very Good(≥75)/Good(≥60)/Fair(≥40)/Poor."  Stated over the
same metrics record, producing the raw score and rating. -/
def specPaymentHistoryPolicy (metrics : CreditMetrics) : ℚ × Rating :=
  let total := metrics.onTimePayments + metrics.latePayments + metrics.defaults
  if total = 0 then (50, .fair)
  else
    let onTimeRate := metrics.onTimePayments / total
    let score :=
      max 0 (onTimeRate * 100 - metrics.defaults * 15 - metrics.latePayments * 5)
    (score,
      if 90 ≤ score then .excellent
      else if 75 ≤ score then .veryGood
      else if 60 ≤ score then .good
      else if 40 ≤ score then .fair
      else .poor)

-- ===========================================================================
-- Metrics aggregator (`src/tests/private-score.ts`,
-- `HeliusClient.calculateCreditMetrics`)
-- ===========================================================================

/-- Embeds `DeFiActivity.action` values. -/
inductive DeFiAction where
  | borrow | repay | deposit | withdraw | stake | unstake | swap | liquidate
deriving DecidableEq, Repr

/-- Embeds `DeFiActivity` (private-score.ts): one classified activity event;
`onTime` is the optional flag of repayments (absent is falsy, as in the
source truthiness test). -/
structure DeFiActivity where
  signature : String
  timestamp : ℚ
  protocol : String
  action : DeFiAction
  amount : ℚ
  token : String
  successful : Bool
  onTime : Option Bool
deriving DecidableEq, Repr

/-- JS `Set.add`: append only when absent, preserving insertion order. -/
def setAdd (s : List String) (x : String) : List String :=
  if x ∈ s then s else s ++ [x]

/-- Accumulator of the aggregation loop of `calculateCreditMetrics`. -/
structure MetricsAcc where
  uniqueProtocols : List String
  totalValue : ℚ
  totalBorrowed : ℚ
  totalRepaid : ℚ
  onTimePayments : ℚ
  latePayments : ℚ
deriving DecidableEq, Repr

/-- One iteration of the `for (const activity of activities)` loop. -/
def metricsStep (acc : MetricsAcc) (activity : DeFiActivity) : MetricsAcc :=
  let acc :=
    { acc with
      uniqueProtocols := setAdd acc.uniqueProtocols activity.protocol
      totalValue := acc.totalValue + activity.amount }
  match activity.action with
  | .borrow => { acc with totalBorrowed := acc.totalBorrowed + activity.amount }
  | .repay =>
    let acc := { acc with totalRepaid := acc.totalRepaid + activity.amount }
    if activity.onTime = some true then
      { acc with onTimePayments := acc.onTimePayments + 1 }
    else
      { acc with latePayments := acc.latePayments + 1 }
  | _ => acc

/-- Embeds `Math.min(...activities.map(a => a.timestamp))` over a nonempty list. -/
def minTimestamp (a : DeFiActivity) (rest : List DeFiActivity) : ℚ :=
  rest.foldl (fun m x => min m x.timestamp) a.timestamp

/-- Embeds `HeliusClient.calculateCreditMetrics`, restricted to its pure aggregation
over the already-extracted activity list (the activity fetch itself is the
external indexer collaborator); `now` is the `Date.now() / 1000` second
clock reading. -/
def calculateCreditMetrics (now : ℚ) (activities : List DeFiActivity) :
    CreditMetrics :=
  match activities with
  | [] =>
    { totalBorrowed := 0, totalRepaid := 0, onTimePayments := 0
      latePayments := 0, defaults := 0, oldestActivityDays := 0
      uniqueProtocols := [], averageTransactionValue := 0
      totalTransactions := 0, utilizationHistory := [] }
  | a :: rest =>
    let oldestTimestamp := minTimestamp a rest
    let oldestActivityDays : ℚ :=
      ((⌊(now - oldestTimestamp) / (60 * 60 * 24)⌋ : ℤ) : ℚ)
    let acc :=
      (a :: rest).foldl metricsStep
        { uniqueProtocols := [], totalValue := 0, totalBorrowed := 0
          totalRepaid := 0, onTimePayments := 0, latePayments := 0 }
    { totalBorrowed := acc.totalBorrowed
      totalRepaid := acc.totalRepaid
      onTimePayments := acc.onTimePayments
      latePayments := acc.latePayments
      defaults := 0
      oldestActivityDays := oldestActivityDays
      uniqueProtocols := acc.uniqueProtocols
      averageTransactionValue :=
        acc.totalValue / ((a :: rest).length : ℚ)
      totalTransactions := ((a :: rest).length : ℚ)
      utilizationHistory :=
        if 0 < acc.totalBorrowed then
          [(acc.totalBorrowed - acc.totalRepaid) / acc.totalBorrowed]
        else [] }

-- ===========================================================================
-- Concrete values used by witnesses and counterexamples
-- ===========================================================================

/-- 64 zero hex characters: both a well-formed 32-byte salt and the
commitment digest produced under `concreteHash`. -/
def zeros64 : String := bytesToHex (List.replicate 32 0)

/-- All-zero metrics (the empty-activity scenario of the spec). -/
def zeroCreditMetrics : CreditMetrics :=
  { totalBorrowed := 0, totalRepaid := 0, onTimePayments := 0
    latePayments := 0, defaults := 0, oldestActivityDays := 0
    uniqueProtocols := [], averageTransactionValue := 0
    totalTransactions := 0, utilizationHistory := [] }

/-- Metrics with 9 on-time payments, 1 late payment and no defaults:
the point where the two payment-history implementations disagree. -/
def paymentMetricsNineOne : CreditMetrics :=
  { zeroCreditMetrics with onTimePayments := 9, latePayments := 1 }

/-- Proof inputs whose commitment verifies under `concreteHash` but whose
score misses the threshold. -/
def belowThresholdInputs : ProofInputs :=
  { score := 400, salt := zeros64, commitment := zeros64
    minScore := 500, poolId := "pool-1", nonce := 1 }

/-- Proof inputs with an out-of-range score (so the commitment cannot
verify) that also misses the threshold. -/
def mismatchAndLowInputs : ProofInputs :=
  { score := 200, salt := zeros64, commitment := zeros64
    minScore := 650, poolId := "pool-1", nonce := 1 }

/-- Proof inputs that pass every check of `generateZKProof` under
`concreteHash`. -/
def passingProofInputs : ProofInputs :=
  { score := 700, salt := zeros64, commitment := zeros64
    minScore := 650, poolId := "pool-1", nonce := 2 }

/-- Creditworthy inputs that pass the three implemented checks although the
commitment does not verify and `totalPayments < minPaymentCount`. -/
def creditworthyGapInputs : CreditworthyProofInputs :=
  { score := 700, salt := "AA", commitment := "not-a-commitment"
    minScore := 600, poolId := "pool-1", nonce := 3
    monthlyIncome := 1000, monthlyDebt := 100
    onTimePayments := 5, totalPayments := 5
    maxDTI := 4000, minPaymentRate := 9000, minPaymentCount := 10 }

/-- Creditworthy inputs failing only the score threshold. -/
def creditworthyLowScoreInputs : CreditworthyProofInputs :=
  { creditworthyGapInputs with score := 500 }

/-- DTI inputs with zero income and zero debt (the `0/0 = NaN` case) and
the tightest possible threshold `maxDTI = 0`. -/
def dtiZeroInputs : DTIProofInputs :=
  { monthlyIncome := 0, monthlyDebt := 0, incomeSalt := "", debtSalt := ""
    incomeCommitment := "", debtCommitment := "", maxDTI := 0
    poolId := "pool-1", nonce := 1 }

/-- A single borrow event used to exercise the aggregator. -/
def borrowEvent : DeFiActivity :=
  { signature := "sig-1", timestamp := 0, protocol := "kamino"
    action := .borrow, amount := 10, token := "SOL"
    successful := true, onTime := none }

-- ===========================================================================
-- Helper lemmas
-- ===========================================================================

/-- Rounding after clamping to `[300, 850]` lands in `[300, 850]`. -/
theorem jsRound_clamp_bounds (x : ℚ) :
    300 ≤ jsRound (min 850 (max 300 x)) ∧ jsRound (min 850 (max 300 x)) ≤ 850 := by
  have h1 : (300 : ℚ) ≤ min 850 (max 300 x) :=
    le_min (by norm_num) (le_max_left _ _)
  have h2 : min (850 : ℚ) (max 300 x) ≤ 850 := min_le_left _ _
  constructor
  · exact Int.le_floor.mpr (by push_cast; linarith)
  · have h3 : jsRound (min 850 (max 300 x)) < 851 :=
      Int.floor_lt.mpr (by push_cast; linarith)
    omega

/-- Branch-by-branch characterization of `generateZKProof`. -/
theorem generateZKProof_spec (hash : List ℕ → List ℕ) (inputs : ProofInputs) :
    (verifyCommitment hash inputs.score inputs.salt inputs.commitment = false →
      generateZKProof hash inputs = .error .commitmentMismatch) ∧
    (verifyCommitment hash inputs.score inputs.salt inputs.commitment = true →
      inputs.score < inputs.minScore →
      generateZKProof hash inputs = .error .scoreBelowThreshold) ∧
    (verifyCommitment hash inputs.score inputs.salt inputs.commitment = true →
      ¬ inputs.score < inputs.minScore →
      (inputs.score < 300 ∨ 850 < inputs.score) →
      generateZKProof hash inputs = .error .invalidScoreRange) ∧
    (verifyCommitment hash inputs.score inputs.salt inputs.commitment = true →
      ¬ inputs.score < inputs.minScore →
      ¬ (inputs.score < 300 ∨ 850 < inputs.score) →
      generateZKProof hash inputs =
        .ok (bytesToHex (utf8Bytes (scoreProofJson hash inputs.score inputs.salt)))) := by
  refine ⟨fun hv => ?_, fun hv hlt => ?_, fun hv hge hr => ?_, fun hv hge hr => ?_⟩
  · simp [generateZKProof, hv]
  · simp [generateZKProof, hv, hlt]
  · simp [generateZKProof, hv, hge, hr]
  · simp [generateZKProof, hv, hge, hr]

/-- Branch-by-branch characterization of `generateCreditworthyProof`,
including the shape of the successful artifact. -/
theorem generateCreditworthyProof_spec (hash : List ℕ → List ℕ)
    (inputs : CreditworthyProofInputs) (now : ℤ) :
    (inputs.score < inputs.minScore →
      generateCreditworthyProof hash inputs now = .error .scoreBelowMinimum) ∧
    (¬ inputs.score < inputs.minScore →
      dtiCheckFails inputs.monthlyDebt inputs.monthlyIncome inputs.maxDTI = true →
      generateCreditworthyProof hash inputs now = .error .dtiExceedsMaximum) ∧
    (¬ inputs.score < inputs.minScore →
      dtiCheckFails inputs.monthlyDebt inputs.monthlyIncome inputs.maxDTI = false →
      paymentRateCheckFails inputs.onTimePayments inputs.totalPayments
        inputs.minPaymentRate = true →
      generateCreditworthyProof hash inputs now = .error .paymentRateBelowMinimum) ∧
    (¬ inputs.score < inputs.minScore →
      dtiCheckFails inputs.monthlyDebt inputs.monthlyIncome inputs.maxDTI = false →
      paymentRateCheckFails inputs.onTimePayments inputs.totalPayments
        inputs.minPaymentRate = false →
      generateCreditworthyProof hash inputs now =
        .ok
          { proof := bytesToHex (utf8Bytes (creditworthyProofJson hash inputs))
            publicInputs :=
              [inputs.commitment, numStr inputs.minScore, numStr inputs.maxDTI,
               numStr inputs.minPaymentRate, inputs.poolId, numStr inputs.nonce]
            commitment := inputs.commitment
            timestamp := now
            expiresAt := now + 60 * 60 * 1000 }) := by
  refine ⟨fun h1 => ?_, fun h1 h2 => ?_, fun h1 h2 h3 => ?_, fun h1 h2 h3 => ?_⟩
  · simp [generateCreditworthyProof, h1]
  · simp [generateCreditworthyProof, h1, h2]
  · simp [generateCreditworthyProof, h1, h2, h3]
  · simp [generateCreditworthyProof, h1, h2, h3]

/-- Lemma: `generateCreditworthyProof` succeeds exactly when its three implemented
checks pass. -/
theorem generateCreditworthyProof_isOk (hash : List ℕ → List ℕ)
    (inputs : CreditworthyProofInputs) (now : ℤ) :
    (generateCreditworthyProof hash inputs now).isOk = true ↔
      (¬ inputs.score < inputs.minScore ∧
       dtiCheckFails inputs.monthlyDebt inputs.monthlyIncome inputs.maxDTI = false ∧
       paymentRateCheckFails inputs.onTimePayments inputs.totalPayments
         inputs.minPaymentRate = false) := by
  unfold generateCreditworthyProof
  split_ifs with h1 h2 h3
  · simp [Except.isOk, Except.toBool, h1]
  · simp [Except.isOk, Except.toBool, h1, h2]
  · simp [Except.isOk, Except.toBool, h1, h2, h3]
  · simp [Except.isOk, Except.toBool, h1, h2, h3]

/-- Lemma: `metricsStep` always adds the event amount to the running total value. -/
theorem metricsStep_totalValue (acc : MetricsAcc) (a : DeFiActivity) :
    (metricsStep acc a).totalValue = acc.totalValue + a.amount := by
  unfold metricsStep
  cases h : a.action <;> simp [h]
  split_ifs <;> simp

/-- The aggregation loop accumulates the sum of all event amounts. -/
theorem foldl_metricsStep_totalValue (activities : List DeFiActivity) :
    ∀ acc : MetricsAcc,
      (activities.foldl metricsStep acc).totalValue =
        acc.totalValue + (activities.map DeFiActivity.amount).sum := by
  induction activities with
  | nil => intro acc; simp
  | cons a rest ih =>
    intro acc
    simp only [List.foldl_cons, List.map_cons, List.sum_cons]
    rw [ih, metricsStep_totalValue]
    ring

-- ===========================================================================
-- Claims
-- ===========================================================================

/-- C1 (counterexample): the claim that `generateCreditworthyProof`
re-verifies the shared commitment and validates `totalPayments ≥
minPaymentCount` before emitting a proof is false: with a commitment that
does not verify and `totalPayments = 5 < 10 = minPaymentCount` (all three
implemented checks passing), a proof is still produced. -/
theorem creditworthy_full_validation_claim_false :
    ¬ (∀ (hash : List ℕ → List ℕ) (now : ℤ) (inputs : CreditworthyProofInputs)
        (p : GeneratedProof),
        generateCreditworthyProof hash inputs now = .ok p →
        verifyCommitment hash inputs.score inputs.salt inputs.commitment = true ∧
        inputs.minPaymentCount ≤ inputs.totalPayments) := by
  intro h
  have hok :=
    (generateCreditworthyProof_spec concreteHash creditworthyGapInputs 0).2.2.2
      (by norm_num [creditworthyGapInputs])
      (by norm_num [creditworthyGapInputs, dtiCheckFails, jsDiv, jsMulPos, jsGt])
      (by norm_num [creditworthyGapInputs, paymentRateCheckFails, jsDiv, jsMulPos,
        jsLt])
  have h2 := h concreteHash 0 creditworthyGapInputs _ hok
  exact absurd h2.2 (by norm_num [creditworthyGapInputs])

/-- C1 (amended): `generateCreditworthyProof` validates only `score ≥
minScore`, the DTI ratio and the payment rate, raising the predicate-specific
error of the first failing check and producing a proof exactly when all three
hold; it does not re-verify the commitment and does not check
`minPaymentCount`. -/
theorem creditworthy_validation_amended :
    ∀ (hash : List ℕ → List ℕ) (now : ℤ) (inputs : CreditworthyProofInputs),
      ((generateCreditworthyProof hash inputs now).isOk = true ↔
        (¬ inputs.score < inputs.minScore ∧
         dtiCheckFails inputs.monthlyDebt inputs.monthlyIncome inputs.maxDTI = false ∧
         paymentRateCheckFails inputs.onTimePayments inputs.totalPayments
           inputs.minPaymentRate = false)) ∧
      (inputs.score < inputs.minScore →
        generateCreditworthyProof hash inputs now = .error .scoreBelowMinimum) ∧
      (¬ inputs.score < inputs.minScore →
        dtiCheckFails inputs.monthlyDebt inputs.monthlyIncome inputs.maxDTI = true →
        generateCreditworthyProof hash inputs now = .error .dtiExceedsMaximum) ∧
      (¬ inputs.score < inputs.minScore →
        dtiCheckFails inputs.monthlyDebt inputs.monthlyIncome inputs.maxDTI = false →
        paymentRateCheckFails inputs.onTimePayments inputs.totalPayments
          inputs.minPaymentRate = true →
        generateCreditworthyProof hash inputs now = .error .paymentRateBelowMinimum) :=
  fun hash now inputs =>
    ⟨generateCreditworthyProof_isOk hash inputs now,
     (generateCreditworthyProof_spec hash inputs now).1,
     (generateCreditworthyProof_spec hash inputs now).2.1,
     (generateCreditworthyProof_spec hash inputs now).2.2.1⟩

/-- C1 (witness): a concrete passing input yields a proof, a concrete
low-score input yields the score-specific error. -/
theorem creditworthy_validation_amended_witness :
    (generateCreditworthyProof concreteHash creditworthyGapInputs 0).isOk = true ∧
    generateCreditworthyProof concreteHash creditworthyLowScoreInputs 0 =
      .error .scoreBelowMinimum := by
  constructor
  · exact (creditworthy_validation_amended concreteHash 0 creditworthyGapInputs).1.mpr
      ⟨by norm_num [creditworthyGapInputs],
       by norm_num [creditworthyGapInputs, dtiCheckFails, jsDiv, jsMulPos, jsGt],
       by norm_num [creditworthyGapInputs, paymentRateCheckFails, jsDiv, jsMulPos,
         jsLt]⟩
  · exact (creditworthy_validation_amended concreteHash 0
      creditworthyLowScoreInputs).2.1
      (by norm_num [creditworthyLowScoreInputs, creditworthyGapInputs])

/-- C2 (counterexample): the claim that `generateZKProof` fails with the
threshold error whenever `score < minScore` is false: the commitment check
runs first, so an input with a mismatched commitment and a low score raises
the commitment error instead. -/
theorem zkproof_threshold_error_claim_false :
    ¬ (∀ (hash : List ℕ → List ℕ) (inputs : ProofInputs),
        inputs.score < inputs.minScore →
        generateZKProof hash inputs = .error .scoreBelowThreshold) := by
  intro h
  have h1 := h concreteHash mismatchAndLowInputs
    (by norm_num [mismatchAndLowInputs])
  have h2 : generateZKProof concreteHash mismatchAndLowInputs =
      .error .commitmentMismatch :=
    (generateZKProof_spec concreteHash mismatchAndLowInputs).1 (by decide)
  rw [h2] at h1
  exact ZKError.noConfusion (Except.error.inj h1)

/-- C2 (amended): `generateZKProof` fails with the commitment error whenever
the commitment does not verify; when it does verify, it fails with the
threshold error whenever `score < minScore`; a proof artifact is returned
only when the commitment verifies and the threshold is met. -/
theorem zkproof_validation_amended :
    ∀ (hash : List ℕ → List ℕ) (inputs : ProofInputs),
      (verifyCommitment hash inputs.score inputs.salt inputs.commitment = false →
        generateZKProof hash inputs = .error .commitmentMismatch) ∧
      (verifyCommitment hash inputs.score inputs.salt inputs.commitment = true →
        inputs.score < inputs.minScore →
        generateZKProof hash inputs = .error .scoreBelowThreshold) ∧
      (∀ s, generateZKProof hash inputs = .ok s →
        verifyCommitment hash inputs.score inputs.salt inputs.commitment = true ∧
        ¬ inputs.score < inputs.minScore) := by
  intro hash inputs
  refine ⟨(generateZKProof_spec hash inputs).1,
    (generateZKProof_spec hash inputs).2.1, ?_⟩
  intro s hs
  cases hv : verifyCommitment hash inputs.score inputs.salt inputs.commitment with
  | false =>
    rw [(generateZKProof_spec hash inputs).1 hv] at hs
    exact absurd hs (by simp)
  | true =>
    refine ⟨rfl, fun hlt => ?_⟩
    rw [(generateZKProof_spec hash inputs).2.1 hv hlt] at hs
    exact absurd hs (by simp)

/-- C2 (witness): concrete mismatched-commitment and low-score inputs
produce the two errors. -/
theorem zkproof_validation_amended_witness :
    generateZKProof concreteHash mismatchAndLowInputs = .error .commitmentMismatch ∧
    generateZKProof concreteHash belowThresholdInputs = .error .scoreBelowThreshold := by
  constructor
  · exact (zkproof_validation_amended concreteHash mismatchAndLowInputs).1 (by decide)
  · exact (zkproof_validation_amended concreteHash belowThresholdInputs).2.1
      (by decide) (by norm_num [belowThresholdInputs])

/-- C3: for every in-range score and well-formed 32-byte hex salt the
commitment round-trips through verification, and on every internal
`createCommitment` error (out-of-range score, malformed salt) the verifier
returns `false` rather than propagating. -/
theorem commitment_roundtrip_defensive :
    ∀ (hash : List ℕ → List ℕ) (score : ℚ) (salt : String) (c : String),
      (300 ≤ score → score ≤ 850 →
        (∃ bs, hexToBytes salt = some bs ∧ bs.length = 32) →
        ∃ commit, createCommitment hash score salt = .ok commit ∧
          verifyCommitment hash score salt commit = true) ∧
      (∀ e, createCommitment hash score salt = .error e →
        verifyCommitment hash score salt c = false) := by
  intro hash score salt c
  constructor
  · rintro h1 h2 ⟨bs, hbs, -⟩
    have hr : ¬ (score < 300 ∨ 850 < score) := by
      push_neg
      constructor <;> linarith
    refine ⟨bytesToHex (hash (scoreToBytes score ++ bs)), ?_, ?_⟩
    · simp [createCommitment, hr, hbs]
    · simp [verifyCommitment, createCommitment, hr, hbs]
  · intro e he
    simp [verifyCommitment, he]

/-- C3 (witness): the round trip at score 550 with a 64-character hex salt,
and the defensive `false` at the out-of-range score 200. -/
theorem commitment_roundtrip_defensive_witness :
    verifyCommitment concreteHash 550 zeros64 zeros64 = true ∧
    verifyCommitment concreteHash 200 zeros64 "bad" = false := by
  constructor
  · obtain ⟨commit, hc, hv⟩ :=
      (commitment_roundtrip_defensive concreteHash 550 zeros64 "bad").1
        (by norm_num) (by norm_num) ⟨List.replicate 32 0, by decide, by decide⟩
    have h550 : createCommitment concreteHash 550 zeros64 = .ok zeros64 := rfl
    rw [h550] at hc
    rw [← Except.ok.inj hc] at hv
    exact hv
  · exact (commitment_roundtrip_defensive concreteHash 200 zeros64 "bad").2
      CommitError.scoreOutOfRange rfl

/-- The final score of the all-zero metrics is 550. -/
theorem zero_metrics_score_eq :
    (calculateCreditScore 0 zeroCreditMetrics).score = 550 := by
  norm_num [calculateCreditScore, calculatePaymentHistoryScore,
    calculateUtilizationScore, calculateAccountHistoryScore,
    calculateDiversityScore, calculateActivityScore, zeroCreditMetrics,
    weightPaymentHistory, weightCreditUtilization, weightAccountHistory,
    weightProtocolDiversity, weightRecentActivity, CREDIT_SCORE_MIN,
    CREDIT_SCORE_MAX, jsRound, min_def, max_def]

/-- The tier of the all-zero metrics result is Poor (550 is below the
`CREDIT_TIERS.FAIR.min` cutoff of 580). -/
theorem zero_metrics_tier_eq :
    (calculateCreditScore 0 zeroCreditMetrics).tier = Tier.poor := by
  have h : (calculateCreditScore 0 zeroCreditMetrics).tier =
      getTierFromScore ((calculateCreditScore 0 zeroCreditMetrics).score) := rfl
  rw [h, zero_metrics_score_eq]
  decide

/-- C4 (counterexample): the all-zero metrics scenario does not end in tier
"Fair": the tier bands of the code put the resulting score 550 in "Poor"
(Fair starts at 580). -/
theorem zero_metrics_tier_claim_false :
    (calculateCreditScore 0 zeroCreditMetrics).tier ≠ Tier.fair := by
  rw [zero_metrics_tier_eq]
  decide

/-- C4 (amended): for the all-zero metrics, the component scores are
50, 70, 20, 20, 20, the weighted total is 45.5, the final score is 550 —
and the tier is "Poor", not "Fair". -/
theorem zero_metrics_scenario_amended :
    (calculateCreditScore 0 zeroCreditMetrics).breakdown.paymentHistory.score = 50 ∧
    (calculateCreditScore 0 zeroCreditMetrics).breakdown.creditUtilization.score = 70 ∧
    (calculateCreditScore 0 zeroCreditMetrics).breakdown.accountHistory.score = 20 ∧
    (calculateCreditScore 0 zeroCreditMetrics).breakdown.protocolDiversity.score = 20 ∧
    (calculateCreditScore 0 zeroCreditMetrics).breakdown.recentActivity.score = 20 ∧
    ((calculateCreditScore 0 zeroCreditMetrics).breakdown.paymentHistory.weighted +
     (calculateCreditScore 0 zeroCreditMetrics).breakdown.creditUtilization.weighted +
     (calculateCreditScore 0 zeroCreditMetrics).breakdown.accountHistory.weighted +
     (calculateCreditScore 0 zeroCreditMetrics).breakdown.protocolDiversity.weighted +
     (calculateCreditScore 0 zeroCreditMetrics).breakdown.recentActivity.weighted)
      = 45.5 ∧
    (calculateCreditScore 0 zeroCreditMetrics).score = 550 ∧
    (calculateCreditScore 0 zeroCreditMetrics).tier = Tier.poor := by
  refine ⟨?_, ?_, ?_, ?_, ?_, ?_, zero_metrics_score_eq, zero_metrics_tier_eq⟩ <;>
    norm_num [calculateCreditScore, calculatePaymentHistoryScore,
      calculateUtilizationScore, calculateAccountHistoryScore,
      calculateDiversityScore, calculateActivityScore, zeroCreditMetrics,
      weightPaymentHistory, weightCreditUtilization, weightAccountHistory,
      weightProtocolDiversity, weightRecentActivity]

/-- C5 (counterexample): the two payment-history implementations are not
extensionally equal: at 9 on-time payments, 1 late payment and 0 defaults
the part_000 scorer gives 85 (Very Good) while the creditScore.ts scorer
gives 70 (Fair). -/
theorem payment_history_impls_differ :
    (calculatePaymentHistoryScore paymentMetricsNineOne).score = 85 ∧
    (calculatePaymentHistoryScore paymentMetricsNineOne).rating = Rating.veryGood ∧
    (fePaymentHistoryScore paymentMetricsNineOne).score = 70 ∧
    (fePaymentHistoryScore paymentMetricsNineOne).rating = Rating.fair ∧
    ¬ ((calculatePaymentHistoryScore paymentMetricsNineOne).score =
        (fePaymentHistoryScore paymentMetricsNineOne).score ∧
       (calculatePaymentHistoryScore paymentMetricsNineOne).rating =
        (fePaymentHistoryScore paymentMetricsNineOne).rating) := by
  refine ⟨?_, ?_, ?_, ?_, ?_⟩ <;>
    norm_num [calculatePaymentHistoryScore, fePaymentHistoryScore,
      paymentMetricsNineOne, zeroCreditMetrics, max_def]

/-- C5 (amended): the part_000 implementation computes exactly the specified
policy (0 payments → 50/Fair; otherwise `max(0, onTimeRate*100 − defaults*15
− latePayments*5)` banded at 90/75/60/40); the creditScore.ts implementation
does not (it ignores defaults and bands the raw on-time rate), so the two
are not extensionally equal. -/
theorem payment_history_matches_spec_policy :
    ∀ metrics : CreditMetrics,
      (calculatePaymentHistoryScore metrics).score =
        (specPaymentHistoryPolicy metrics).1 ∧
      (calculatePaymentHistoryScore metrics).rating =
        (specPaymentHistoryPolicy metrics).2 := by
  intro metrics
  unfold calculatePaymentHistoryScore specPaymentHistoryPolicy
  by_cases h : metrics.onTimePayments + metrics.latePayments + metrics.defaults = 0
  · simp [h]
  · simp only [h, if_false, if_neg h]
    constructor
    · first
      | rfl
      | trivial
    · split_ifs <;> rfl

/-- C6: for every metrics record the final score is an integer in
`[300, 850]` and equals the rounded clamp of the linear map of the weighted
component sum. -/
theorem score_range_invariant :
    ∀ (now : ℤ) (metrics : CreditMetrics),
      300 ≤ (calculateCreditScore now metrics).score ∧
      (calculateCreditScore now metrics).score ≤ 850 ∧
      (calculateCreditScore now metrics).score =
        jsRound (min 850 (max 300 (300 +
          ((calculateCreditScore now metrics).breakdown.paymentHistory.weighted +
           (calculateCreditScore now metrics).breakdown.creditUtilization.weighted +
           (calculateCreditScore now metrics).breakdown.accountHistory.weighted +
           (calculateCreditScore now metrics).breakdown.protocolDiversity.weighted +
           (calculateCreditScore now metrics).breakdown.recentActivity.weighted)
            / 100 * 550))) := by
  intro now metrics
  have hs : (calculateCreditScore now metrics).score =
      jsRound (min 850 (max 300 (300 +
        ((calculatePaymentHistoryScore metrics).weighted +
         (calculateUtilizationScore metrics).weighted +
         (calculateAccountHistoryScore metrics).weighted +
         (calculateDiversityScore metrics).weighted +
         (calculateActivityScore metrics).weighted) / 100 * (850 - 300)))) := rfl
  obtain ⟨hl, hu⟩ := jsRound_clamp_bounds (300 +
    ((calculatePaymentHistoryScore metrics).weighted +
     (calculateUtilizationScore metrics).weighted +
     (calculateAccountHistoryScore metrics).weighted +
     (calculateDiversityScore metrics).weighted +
     (calculateActivityScore metrics).weighted) / 100 * (850 - 300))
  refine ⟨hs ▸ hl, hs ▸ hu, ?_⟩
  rw [hs]
  norm_num [calculateCreditScore]

/-- C7 (counterexample): the composite creditworthy proof validity window
is not longer than the single-predicate window: it is exactly the same
3600000 ms (one hour). -/
theorem composite_window_not_longer :
    ¬ (∀ (hash : List ℕ → List ℕ) (inputs : CreditworthyProofInputs) (now : ℤ)
        (p : GeneratedProof),
        generateCreditworthyProof hash inputs now = .ok p →
        3600000 < p.expiresAt - p.timestamp) := by
  intro h
  have hok :=
    (generateCreditworthyProof_spec concreteHash creditworthyGapInputs 0).2.2.2
      (by norm_num [creditworthyGapInputs])
      (by norm_num [creditworthyGapInputs, dtiCheckFails, jsDiv, jsMulPos, jsGt])
      (by norm_num [creditworthyGapInputs, paymentRateCheckFails, jsDiv, jsMulPos,
        jsLt])
  have h2 := h concreteHash creditworthyGapInputs 0 _ hok
  norm_num at h2

/-- C7 (amended): every proof artifact of `generateCompleteProof` and of
`generateCreditworthyProof` carries `timestamp = now` and `expiresAt = now +
3600000` ms (one hour for both — the composite window is not longer), it is
unexpired at generation time and expired one millisecond after the window,
and `isProofExpired` holds exactly when the clock exceeds `expiresAt`. -/
theorem proof_expiry_amended :
    ∀ (hash : List ℕ → List ℕ) (inputs : ProofInputs)
      (ci : CreditworthyProofInputs) (now t : ℤ) (p : GeneratedProof),
      (∀ q, generateCompleteProof hash inputs now = .ok q →
        q.timestamp = now ∧ q.expiresAt = now + 3600000 ∧
        isProofExpired now q = false ∧
        isProofExpired (now + 3600000 + 1) q = true) ∧
      (∀ q, generateCreditworthyProof hash ci now = .ok q →
        q.timestamp = now ∧ q.expiresAt = now + 3600000 ∧
        isProofExpired now q = false ∧
        isProofExpired (now + 3600000 + 1) q = true) ∧
      (isProofExpired t p = true ↔ p.expiresAt < t) := by
  intro hash inputs ci now t p
  refine ⟨?_, ?_, ?_⟩
  · intro q hq
    unfold generateCompleteProof at hq
    cases hg : generateZKProof hash inputs with
    | error e =>
      rw [hg] at hq
      simp [Except.map] at hq
    | ok s =>
      rw [hg] at hq
      simp only [Except.map] at hq
      have hrec := Except.ok.inj hq
      subst hrec
      refine ⟨rfl, by norm_num, ?_, ?_⟩
      · simp only [isProofExpired]
        simp only [decide_eq_false_iff_not]
        omega
      · simp only [isProofExpired]
        simp only [decide_eq_true_eq]
        omega
  · intro q hq
    unfold generateCreditworthyProof at hq
    split_ifs at hq
    have hrec := Except.ok.inj hq
    subst hrec
    refine ⟨rfl, by norm_num, ?_, ?_⟩
    · simp only [isProofExpired]
      simp only [decide_eq_false_iff_not]
      omega
    · simp only [isProofExpired]
      simp only [decide_eq_true_eq]
      omega
  · simp only [isProofExpired, decide_eq_true_eq]

/-- C7 (witness): at clock 0 the single and composite artifacts both carry
`timestamp = 0`, `expiresAt = 3600000`, are unexpired at 0 and expired at
3600001. -/
theorem proof_expiry_amended_witness :
    (generateCompleteProof concreteHash passingProofInputs 0).map
      (fun q => (q.timestamp, q.expiresAt, isProofExpired 0 q,
                 isProofExpired 3600001 q)) = .ok (0, 3600000, false, true) ∧
    (generateCreditworthyProof concreteHash creditworthyGapInputs 0).map
      (fun q => (q.timestamp, q.expiresAt, isProofExpired 0 q,
                 isProofExpired 3600001 q)) = .ok (0, 3600000, false, true) := by
  constructor
  · have hz := (generateZKProof_spec concreteHash passingProofInputs).2.2.2
      (by decide) (by norm_num [passingProofInputs])
      (by norm_num [passingProofInputs])
    have hok : generateCompleteProof concreteHash passingProofInputs 0 =
        .ok { proof := bytesToHex (utf8Bytes (scoreProofJson concreteHash
                passingProofInputs.score passingProofInputs.salt))
              publicInputs := [passingProofInputs.commitment,
                numStr passingProofInputs.minScore, passingProofInputs.poolId,
                numStr passingProofInputs.nonce, toString (Int.fdiv 0 1000)]
              commitment := passingProofInputs.commitment
              timestamp := 0
              expiresAt := 0 + 60 * 60 * 1000 } := by
      unfold generateCompleteProof
      rw [hz]
      rfl
    have h := (proof_expiry_amended concreteHash passingProofInputs
      creditworthyGapInputs 0 0 ⟨"", [], "", 0, 0⟩).1 _ hok
    norm_num at h
    rw [hok]
    simp only [Except.map]
    norm_num [h.1, h.2]
  · have hok :=
      (generateCreditworthyProof_spec concreteHash creditworthyGapInputs 0).2.2.2
        (by norm_num [creditworthyGapInputs])
        (by norm_num [creditworthyGapInputs, dtiCheckFails, jsDiv, jsMulPos, jsGt])
        (by norm_num [creditworthyGapInputs, paymentRateCheckFails, jsDiv,
          jsMulPos, jsLt])
    have h := (proof_expiry_amended concreteHash passingProofInputs
      creditworthyGapInputs 0 0 ⟨"", [], "", 0, 0⟩).2.1 _ hok
    norm_num at h
    rw [hok]
    simp only [Except.map]
    norm_num [h.1, h.2]

/-- C8 (counterexample): repeated calls are not bit-identical across clock
readings: `lastUpdated` stores `Date.now()`, so calls at clock 0 and clock 1
return different records. -/
theorem score_determinism_claim_false :
    ¬ (∀ (metrics : CreditMetrics) (t1 t2 : ℤ),
        calculateCreditScore t1 metrics = calculateCreditScore t2 metrics) := by
  intro h
  have h1 := congrArg CreditScoreResult.lastUpdated (h zeroCreditMetrics 0 1)
  have h2 : (calculateCreditScore 0 zeroCreditMetrics).lastUpdated = 0 := rfl
  have h3 : (calculateCreditScore 1 zeroCreditMetrics).lastUpdated = 1 := rfl
  rw [h2, h3] at h1
  exact absurd h1 (by decide)

/-- C8 (amended): for a fixed metrics record, every field except
`lastUpdated` is a pure function of the metrics — identical across calls at
any two clock readings — while `lastUpdated` equals the clock reading of the
call. -/
theorem score_determinism_amended :
    ∀ (metrics : CreditMetrics) (t1 t2 : ℤ),
      (calculateCreditScore t1 metrics).score =
        (calculateCreditScore t2 metrics).score ∧
      (calculateCreditScore t1 metrics).tier =
        (calculateCreditScore t2 metrics).tier ∧
      (calculateCreditScore t1 metrics).breakdown =
        (calculateCreditScore t2 metrics).breakdown ∧
      (calculateCreditScore t1 metrics).recommendations =
        (calculateCreditScore t2 metrics).recommendations ∧
      (calculateCreditScore t1 metrics).trend =
        (calculateCreditScore t2 metrics).trend ∧
      (calculateCreditScore t1 metrics).lastUpdated = t1 :=
  fun _ _ _ => ⟨rfl, rfl, rfl, rfl, rfl, rfl⟩

/-- C9: the pure aggregation of `calculateCreditMetrics` maps the empty
event list to the all-zero metrics record; on a non-empty list the
transaction count is the list length, the average transaction value is the
amount sum divided by that count, and the utilization history holds exactly
the single entry `(totalBorrowed − totalRepaid) / totalBorrowed` when
`totalBorrowed > 0` and is empty otherwise. -/
theorem metrics_aggregator_props :
    ∀ (now : ℚ) (activities : List DeFiActivity),
      (activities = [] → calculateCreditMetrics now activities = zeroCreditMetrics) ∧
      (activities ≠ [] →
        (calculateCreditMetrics now activities).totalTransactions =
          (activities.length : ℚ) ∧
        (calculateCreditMetrics now activities).averageTransactionValue =
          (activities.map DeFiActivity.amount).sum / (activities.length : ℚ) ∧
        (calculateCreditMetrics now activities).utilizationHistory =
          (if 0 < (calculateCreditMetrics now activities).totalBorrowed then
            [((calculateCreditMetrics now activities).totalBorrowed -
              (calculateCreditMetrics now activities).totalRepaid) /
              (calculateCreditMetrics now activities).totalBorrowed]
           else [])) := by
  intro now activities
  constructor
  · rintro rfl
    rfl
  · intro hne
    match activities, hne with
    | a :: rest, _ =>
      refine ⟨rfl, ?_, rfl⟩
      show ((a :: rest).foldl metricsStep
          { uniqueProtocols := [], totalValue := 0, totalBorrowed := 0
            totalRepaid := 0, onTimePayments := 0, latePayments := 0 }).totalValue /
          (((a :: rest).length : ℕ) : ℚ) =
        ((a :: rest).map DeFiActivity.amount).sum / (((a :: rest).length : ℕ) : ℚ)
      rw [foldl_metricsStep_totalValue]
      norm_num

/-- C9 (witness): concrete evaluation on the empty list and on a single
borrow event of amount 10 (average 10, utilization history `[1]`). -/
theorem metrics_aggregator_props_witness :
    calculateCreditMetrics 0 ([] : List DeFiActivity) = zeroCreditMetrics ∧
    (calculateCreditMetrics 0 [borrowEvent]).totalTransactions = 1 ∧
    (calculateCreditMetrics 0 [borrowEvent]).averageTransactionValue = 10 ∧
    (calculateCreditMetrics 0 [borrowEvent]).utilizationHistory = [1] := by
  have h := (metrics_aggregator_props 0 [borrowEvent]).2 (by simp)
  have he := (metrics_aggregator_props 0 ([] : List DeFiActivity)).1 rfl
  refine ⟨he, ?_, ?_, ?_⟩
  · rw [h.1]
    norm_num
  · rw [h.2.1]
    norm_num [borrowEvent]
  · rw [h.2.2]
    norm_num [calculateCreditMetrics, minTimestamp, metricsStep, setAdd,
      borrowEvent]

/-- C10: with zero monthly income and zero monthly debt the computed DTI
ratio is `(0/0)*10000 = NaN`, the comparison `NaN > maxDTI` is false for
every `maxDTI` (including 0), so `generateDTIProof` raises no error and
returns a proof artifact. -/
theorem dti_zero_income_ok :
    ∀ (hash : List ℕ → List ℕ) (inputs : DTIProofInputs),
      inputs.monthlyIncome = 0 → inputs.monthlyDebt = 0 →
      dtiCheckFails inputs.monthlyDebt inputs.monthlyIncome inputs.maxDTI = false ∧
      generateDTIProof hash inputs =
        .ok (bytesToHex (utf8Bytes (dtiProofJson hash inputs))) := by
  intro hash inputs h1 h2
  have hd : dtiCheckFails inputs.monthlyDebt inputs.monthlyIncome
      inputs.maxDTI = false := by
    rw [h1, h2]
    simp [dtiCheckFails, jsDiv, jsMulPos, jsGt]
  exact ⟨hd, by simp [generateDTIProof, hd]⟩

/-- C10 (witness): the concrete zero-income inputs with `maxDTI = 0` yield a
proof artifact. -/
theorem dti_zero_income_ok_witness :
    dtiCheckFails dtiZeroInputs.monthlyDebt dtiZeroInputs.monthlyIncome
      dtiZeroInputs.maxDTI = false ∧
    generateDTIProof concreteHash dtiZeroInputs =
      .ok (bytesToHex (utf8Bytes (dtiProofJson concreteHash dtiZeroInputs))) :=
  dti_zero_income_ok concreteHash dtiZeroInputs rfl rfl
